import Mathlib

/-!
Verification of the MCP multi-server connection lifecycle manager from
src/src/service.ts and the shared types of the plugin (src/unnamed/part_001,
exporting MAX_RECONNECT_ATTEMPTS, BACKOFF_MULTIPLIER, INITIAL_RETRY_DELAY,
DEFAULT_PING_CONFIG, DEFAULT_MCP_TIMEOUT_SECONDS and the config types), and
of buildMcpProviderData from src/src/utils/mcp.ts.

The embedding is shallow: the mutable class fields of McpService become a
record threaded through pure functions, JavaScript Maps become insertion
ordered association lists, and the asynchronous outside world (transport
construction beyond the static checks, the protocol handshake, the three
capability listing calls, tool invocations) is passed in as explicit
outcome parameters. Timers are modelled by whether they are armed (and,
for the reconnect timer, the delay they were armed with).
-/

namespace Mcp

/-- A JSON value as produced by the JavaScript runtime. Objects keep the
insertion order of their keys, because JSON.stringify serializes keys in
that order and the program compares such serializations textually. -/
inductive Json where
  | null : Json
  | bool (b : Bool) : Json
  | num (n : Nat) : Json
  | str (s : String) : Json
  | arr (xs : List Json) : Json
  | obj (fields : List (String × Json)) : Json

mutual

/-- JSON.stringify: renders a value with object keys in insertion order. -/
def jsonStringify : Json → String
  | Json.null => "null"
  | Json.bool b => if b then "true" else "false"
  | Json.num n => toString n
  | Json.str s => "\"" ++ s ++ "\""
  | Json.arr xs => "[" ++ jsonStringifyList xs ++ "]"
  | Json.obj fs => "\x7b" ++ jsonStringifyFields fs ++ "\x7d"

def jsonStringifyList : List Json → String
  | [] => ""
  | [x] => jsonStringify x
  | x :: xs => jsonStringify x ++ "," ++ jsonStringifyList xs

def jsonStringifyFields : List (String × Json) → String
  | [] => ""
  | [(k, v)] => "\"" ++ k ++ "\":" ++ jsonStringify v
  | (k, v) :: fs => "\"" ++ k ++ "\":" ++ jsonStringify v ++ "," ++ jsonStringifyFields fs

end

/-- Property access on a JSON object (config.field): the first binding of
the key, none when absent or when the value is not an object. -/
def jsonLookup (j : Json) (key : String) : Option Json :=
  match j with
  | Json.obj fs => fs.lookup key
  | _ => none

mutual

/-- Boolean equality of JSON values, order sensitive on object fields
(this is equality of the JavaScript values as serialized). -/
def jsonBeq : Json → Json → Bool
  | Json.null, Json.null => true
  | Json.bool a, Json.bool b => a == b
  | Json.num a, Json.num b => a == b
  | Json.str a, Json.str b => a == b
  | Json.arr a, Json.arr b => jsonBeqList a b
  | Json.obj a, Json.obj b => jsonBeqFields a b
  | _, _ => false

def jsonBeqList : List Json → List Json → Bool
  | [], [] => true
  | x :: xs, y :: ys => jsonBeq x y && jsonBeqList xs ys
  | _, _ => false

def jsonBeqFields : List (String × Json) → List (String × Json) → Bool
  | [], [] => true
  | (k, v) :: xs, (k2, v2) :: ys => k == k2 && jsonBeq v v2 && jsonBeqFields xs ys
  | _, _ => false

end

instance : BEq Json := ⟨jsonBeq⟩

/-- Code point wise comparison of keys (any fixed total order on keys
works for canonicalization). -/
def keyLe (a b : String) : Bool :=
  let rec go : List Char → List Char → Bool
    | [], _ => true
    | _ :: _, [] => false
    | x :: xs, y :: ys =>
      if x.toNat < y.toNat then true
      else if y.toNat < x.toNat then false
      else go xs ys
  go a.data b.data

/-- Insertion sort of object fields by key. -/
def sortFields (fs : List (String × Json)) : List (String × Json) :=
  let rec insert (p : String × Json) : List (String × Json) → List (String × Json)
    | [] => [p]
    | q :: qs => if keyLe p.1 q.1 then p :: q :: qs else q :: insert p qs
  fs.foldr insert []

mutual

/-- Canonical form of a JSON value: object fields sorted by key at every
level. Two configs are field-wise structurally equal exactly when their
canonical forms coincide, independent of key insertion order. -/
def jsonCanon : Json → Json
  | Json.null => Json.null
  | Json.bool b => Json.bool b
  | Json.num n => Json.num n
  | Json.str s => Json.str s
  | Json.arr xs => Json.arr (jsonCanonList xs)
  | Json.obj fs => Json.obj (sortFields (jsonCanonFields fs))

def jsonCanonList : List Json → List Json
  | [] => []
  | x :: xs => jsonCanon x :: jsonCanonList xs

def jsonCanonFields : List (String × Json) → List (String × Json)
  | [] => []
  | (k, v) :: fs => (k, jsonCanon v) :: jsonCanonFields fs

end

/-- Modelled from the spec: the structural, field-wise equality of two
server configs that the spec prescribes for change detection, insensitive
to object key order (serialization key order is unspecified). The code in
updateServerConnections does not use this; it compares serialized texts. -/
def structuralEq (a b : Json) : Bool :=
  jsonBeq (jsonCanon a) (jsonCanon b)

-- Insertion ordered association lists modelling JavaScript Map objects
-- (and plain objects used as string keyed records): Map.set updates an
-- existing key in place and appends a new key at the end; iteration
-- follows insertion order.

/-- Map.get: first binding of the key, if any. -/
def lookupA {α : Type} (k : String) : List (String × α) → Option α
  | [] => none
  | (k2, v) :: rest => if k2 = k then some v else lookupA k rest

/-- Map.set: update in place when the key exists, append otherwise. -/
def setA {α : Type} (k : String) (v : α) : List (String × α) → List (String × α)
  | [] => [(k, v)]
  | (k2, v2) :: rest => if k2 = k then (k, v) :: rest else (k2, v2) :: setA k v rest

/-- Map.delete: removes the bindings of the key. -/
def eraseA {α : Type} (k : String) : List (String × α) → List (String × α)
  | [] => []
  | (k2, v) :: rest => if k2 = k then eraseA k rest else (k2, v) :: eraseA k rest

-- Constants exported by the shared types module (src/unnamed/part_001).

def MCP_SERVICE_NAME : String := "mcp"
def DEFAULT_MCP_TIMEOUT_SECONDS : Nat := 60000
def MAX_RECONNECT_ATTEMPTS : Nat := 5
def BACKOFF_MULTIPLIER : Nat := 2
def INITIAL_RETRY_DELAY : Nat := 2000

/-- PingConfig from the shared types module. -/
structure PingConfig where
  enabled : Bool
  intervalMs : Nat
  timeoutMs : Nat
  failuresBeforeDisconnect : Nat
deriving DecidableEq, Repr

/-- DEFAULT_PING_CONFIG from the shared types module. -/
def DEFAULT_PING_CONFIG : PingConfig :=
  { enabled := true
    intervalMs := 10000
    timeoutMs := 5000
    failuresBeforeDisconnect := 3 }

/-- The status union of the internal ConnectionState: note that it declares
a fourth member, failed, beyond the three of McpServerStatus. -/
inductive CStatus where
  | connecting : CStatus
  | connected : CStatus
  | disconnected : CStatus
  | failed : CStatus
deriving DecidableEq, Repr

/-- ConnectionState from the shared types module. The two NodeJS timer
handles are modelled by whether a timer is armed; the reconnect timer also
records the delay it was armed with. Dates are abstract instants. -/
structure ConnectionState where
  status : CStatus
  pingInterval : Bool
  reconnectTimeout : Option Nat
  reconnectAttempts : Nat
  lastConnected : Option Unit
  lastError : Option String
  consecutivePingFailures : Nat
deriving DecidableEq, Repr

/-- McpServerStatus from the shared types module: the externally visible
status union has no failed member. -/
inductive McpServerStatus where
  | connecting : McpServerStatus
  | connected : McpServerStatus
  | disconnected : McpServerStatus
deriving DecidableEq, Repr

/-- A tool as cached from a listTools response (only the fields read by
buildMcpProviderData are modelled; the rest ride along in inputSchema). -/
structure Tool where
  name : String
  description : Option String
  inputSchema : Option Json

/-- A resource as cached from a listResources response. -/
structure Resource where
  uri : String
  name : String
  description : Option String
  mimeType : Option String

/-- A resource template as cached from a listResourceTemplates response.
Its fields are never read by the lifecycle manager. -/
structure ResourceTemplate where
  uriTemplate : String

/-- McpServer from the shared types module: the externally visible record.
The config field holds the JSON.stringify snapshot of the server config;
since that serialization is injective and is parsed back with JSON.parse
wherever the program reads it, the snapshot is modelled by the ordered
JSON tree it denotes, and jsonStringify realizes the stored text where the
program compares texts. The optional error field of the source is a string
that is absent or empty until an error is appended; absent and empty are
indistinguishable to every read (JavaScript truthiness), so both are the
empty string here. The optional capability arrays are none before the
first successful fetch. -/
structure McpServer where
  name : String
  status : McpServerStatus
  config : Json
  error : String
  disabled : Bool
  tools : Option (List Tool)
  resources : Option (List Resource)
  resourceTemplates : Option (List ResourceTemplate)

/-- McpConnection: the server record paired with its client and transport
handles. The handles carry no observable state beyond their existence, so
only the server record is modelled. -/
structure McpConnection where
  server : McpServer

/-- McpToolInfo entries of the provider snapshot. -/
structure McpToolInfo where
  description : String
  inputSchema : Json

/-- McpResourceInfo entries of the provider snapshot. -/
structure McpResourceInfo where
  name : String
  description : String
  mimeType : Option String

/-- McpServerInfo: per server entry of the provider snapshot. Record
objects keyed by tool name and resource uri are insertion ordered
association lists. -/
structure McpServerInfo where
  status : McpServerStatus
  tools : List (String × McpToolInfo)
  resources : List (String × McpResourceInfo)

/-- McpProviderData: the server keyed record of the snapshot. -/
def McpProviderData : Type := List (String × McpServerInfo)

/-- McpProvider from the shared types module. In the source, values and
data each wrap the same record under the fixed single key mcp; the
constant wrapper is elided. -/
structure McpProvider where
  values : McpProviderData
  data : McpProviderData
  text : String

/-- Rendering of a server status into template strings. -/
def statusStr : McpServerStatus → String
  | McpServerStatus.connecting => "connecting"
  | McpServerStatus.connected => "connected"
  | McpServerStatus.disconnected => "disconnected"

/-- JavaScript truthiness of a JSON value. -/
def jsTruthy : Json → Bool
  | Json.null => false
  | Json.bool b => b
  | Json.num n => n ≠ 0
  | Json.str s => s ≠ ""
  | Json.arr _ => true
  | Json.obj _ => true

/-- JavaScript x || d for an optional string x (empty strings are falsy). -/
def jsOrStr (o : Option String) (d : String) : String :=
  match o with
  | some s => if s = "" then d else s
  | none => d

/-- mcpData[serverName].tools[toolName] = info. -/
def setToolInfo (serverName toolName : String) (info : McpToolInfo) (d : McpProviderData) : McpProviderData :=
  match lookupA serverName d with
  | none => d
  | some si => setA serverName { si with tools := setA toolName info si.tools } d

/-- mcpData[serverName].resources[uri] = info. -/
def setResourceInfo (serverName uri : String) (info : McpResourceInfo) (d : McpProviderData) : McpProviderData :=
  match lookupA serverName d with
  | none => d
  | some si => setA serverName { si with resources := setA uri info si.resources } d

/-- buildMcpProviderData from src/src/utils/mcp.ts: aggregates the given
server records into the provider snapshot, accumulating the data record
and the text rendering exactly in iteration order. -/
def buildMcpProviderData (servers : List McpServer) : McpProvider :=
  if servers.length = 0 then
    { values := [], data := [], text := "No MCP servers are currently connected." }
  else
    let step := fun (acc : McpProviderData × String) (server : McpServer) =>
      let mcpData := setA server.name
        { status := server.status, tools := [], resources := [] } acc.1
      let textContent := acc.2 ++ "## Server: " ++ server.name ++ " (" ++
        statusStr server.status ++ ")\n\n"
      let acc1 : McpProviderData × String :=
        match server.tools with
        | some ts =>
          if 0 < ts.length then
            let textContent := textContent ++ "### Tools:\n\n"
            let a2 := ts.foldl (fun (a : McpProviderData × String) tool =>
              let d := setToolInfo server.name tool.name
                { description := jsOrStr tool.description "No description available"
                  inputSchema := tool.inputSchema.getD (Json.obj []) } a.1
              let t := a.2 ++ "- **" ++ tool.name ++ "**: " ++
                jsOrStr tool.description "No description available" ++ "\n"
              let t :=
                match tool.inputSchema with
                | some schema =>
                  match jsonLookup schema "properties" with
                  | some props =>
                    if jsTruthy props then
                      t ++ "  Parameters: " ++ jsonStringify props ++ "\n"
                    else t
                  | none => t
                | none => t
              (d, t)) (mcpData, textContent)
            (a2.1, a2.2 ++ "\n")
          else (mcpData, textContent)
        | none => (mcpData, textContent)
      let acc2 : McpProviderData × String :=
        match server.resources with
        | some rs =>
          if 0 < rs.length then
            let textContent := acc1.2 ++ "### Resources:\n\n"
            let a2 := rs.foldl (fun (a : McpProviderData × String) resource =>
              let d := setResourceInfo server.name resource.uri
                { name := resource.name
                  description := jsOrStr resource.description "No description available"
                  mimeType := resource.mimeType } a.1
              let t := a.2 ++ "- **" ++ resource.name ++ "** (" ++ resource.uri ++
                "): " ++ jsOrStr resource.description "No description available" ++ "\n"
              (d, t)) (acc1.1, textContent)
            (a2.1, a2.2 ++ "\n")
          else acc1
        | none => acc1
      acc2
    let r := servers.foldl step ([], "")
    { values := r.1, data := r.1, text := "# MCP Configuration\n\n" ++ r.2 }

/-- The mutable fields of the McpService class: the connection map, the
connection state map, the cached provider snapshot, and the ping
configuration. -/
structure McpService where
  connections : List (String × McpConnection)
  connectionStates : List (String × ConnectionState)
  mcpProvider : McpProvider
  pingConfig : PingConfig

/-- The field initializers of the McpService class (fresh instance before
initializeMcpServers runs). -/
def emptyService : McpService :=
  { connections := []
    connectionStates := []
    mcpProvider := { values := [], data := [], text := "" }
    pingConfig := DEFAULT_PING_CONFIG }

/-- deleteConnection: closes the transport and client handles (external
effects), removes the connection map entry, clears the ping and reconnect
timers of the tracked state and removes it. -/
def deleteConnection (name : String) (s : McpService) : McpService :=
  { s with
    connections := eraseA name s.connections
    connectionStates := eraseA name s.connectionStates }

/-- handleDisconnection: marks the tracked state disconnected, records the
error, clears the ping timer and any pending reconnect timer; when the
attempt counter has reached MAX_RECONNECT_ATTEMPTS it gives up (arming
nothing), otherwise it arms a single shot reconnect timer with delay
INITIAL_RETRY_DELAY * BACKOFF_MULTIPLIER ^ reconnectAttempts. -/
def handleDisconnection (name : String) (error : String) (s : McpService) : McpService :=
  match lookupA name s.connectionStates with
  | none => s
  | some st =>
    let st := { st with
      status := CStatus.disconnected
      lastError := some error
      pingInterval := false
      reconnectTimeout := none }
    if MAX_RECONNECT_ATTEMPTS ≤ st.reconnectAttempts then
      { s with connectionStates := setA name st s.connectionStates }
    else
      let delay := INITIAL_RETRY_DELAY * BACKOFF_MULTIPLIER ^ st.reconnectAttempts
      let st2 := { st with reconnectTimeout := some delay }
      { s with connectionStates := setA name st2 s.connectionStates }

/-- startPingMonitoring: arms the repeating ping timer when enabled,
replacing any previous one. -/
def startPingMonitoring (name : String) (s : McpService) : McpService :=
  match lookupA name s.connectionStates with
  | none => s
  | some st =>
    if !s.pingConfig.enabled then s
    else
      let st2 := { st with pingInterval := true }
      { s with connectionStates := setA name st2 s.connectionStates }

/-- fetchToolsList: returns the listed tools; an absent connection, a
thrown protocol call or an absent tools field all yield the empty list
(the call outcome is passed in as an Except, the optional field as an
Option). -/
def fetchToolsList (conn : Option McpConnection)
    (call : Except String (Option (List Tool))) : List Tool :=
  match conn with
  | none => []
  | some _ =>
    match call with
    | Except.error _ => []
    | Except.ok response =>
      match response with
      | none => []
      | some tools => tools

/-- fetchResourcesList: same fault isolation as fetchToolsList. -/
def fetchResourcesList (conn : Option McpConnection)
    (call : Except String (Option (List Resource))) : List Resource :=
  match conn with
  | none => []
  | some _ =>
    match call with
    | Except.error _ => []
    | Except.ok response =>
      match response with
      | none => []
      | some resources => resources

/-- fetchResourceTemplatesList: same fault isolation as fetchToolsList. -/
def fetchResourceTemplatesList (conn : Option McpConnection)
    (call : Except String (Option (List ResourceTemplate))) : List ResourceTemplate :=
  match conn with
  | none => []
  | some _ =>
    match call with
    | Except.error _ => []
    | Except.ok response =>
      match response with
      | none => []
      | some resourceTemplates => resourceTemplates

/-- The outside world of one connection attempt: the transport constructor
may throw beyond the static guards, the protocol handshake may reject, or
the handshake succeeds and the three capability listing calls each either
throw or return their optional field. -/
inductive ConnectOutcome where
  | transportFail (e : String) : ConnectOutcome
  | connectFail (e : String) : ConnectOutcome
  | ok (tools : Except String (Option (List Tool)))
       (resources : Except String (Option (List Resource)))
       (resourceTemplates : Except String (Option (List ResourceTemplate))) : ConnectOutcome

/-- The static guards of buildStdioClientTransport and
buildHttpClientTransport: a stdio config with a missing or empty command,
or a non stdio config with a missing or empty url, throws before any
transport exists. Configs are typed, so command and url are strings when
present. -/
def transportCheck (name : String) (config : Json) : Option String :=
  if jsonLookup config "type" == some (Json.str "stdio") then
    match jsonLookup config "command" with
    | some (Json.str c) =>
      if c = "" then some ("Missing command for stdio MCP server " ++ name) else none
    | _ => some ("Missing command for stdio MCP server " ++ name)
  else
    match jsonLookup config "url" with
    | some (Json.str u) =>
      if u = "" then some ("Missing URL for HTTP MCP server " ++ name) else none
    | _ => some ("Missing URL for HTTP MCP server " ++ name)

/-- initializeConnection: tears down any previous connection of the name,
tracks a fresh connecting state, builds the transport, inserts the
connection record (status connecting) before the handshake, and on
handshake success fetches the three capability lists, replaces the server
record with a connected one, resets the counters and arms ping
monitoring. Any throw is caught: the tracked state becomes disconnected
with the error recorded, handleDisconnection runs, and the error is
rethrown (returned in the second component). -/
def initializeConnection (name : String) (config : Json) (outcome : ConnectOutcome)
    (s : McpService) : McpService × Option String :=
  let s := deleteConnection name s
  let state0 : ConnectionState :=
    { status := CStatus.connecting
      pingInterval := false
      reconnectTimeout := none
      reconnectAttempts := 0
      lastConnected := none
      lastError := none
      consecutivePingFailures := 0 }
  let s := { s with connectionStates := setA name state0 s.connectionStates }
  let onError := fun (e : String) (s2 : McpService) =>
    let s3 :=
      match lookupA name s2.connectionStates with
      | none => s2
      | some st =>
        let st2 := { st with status := CStatus.disconnected, lastError := some e }
        { s2 with connectionStates := setA name st2 s2.connectionStates }
    (handleDisconnection name e s3, some e)
  match transportCheck name config with
  | some e => onError e s
  | none =>
    match outcome with
    | ConnectOutcome.transportFail e => onError e s
    | ConnectOutcome.connectFail e =>
      let conn : McpConnection :=
        { server :=
          { name := name
            config := config
            status := McpServerStatus.connecting
            error := ""
            disabled := false
            tools := none
            resources := none
            resourceTemplates := none } }
      let s := { s with connections := setA name conn s.connections }
      onError e s
    | ConnectOutcome.ok tRes rRes tpRes =>
      let conn : McpConnection :=
        { server :=
          { name := name
            config := config
            status := McpServerStatus.connecting
            error := ""
            disabled := false
            tools := none
            resources := none
            resourceTemplates := none } }
      let s := { s with connections := setA name conn s.connections }
      let tools := fetchToolsList (lookupA name s.connections) tRes
      let resources := fetchResourcesList (lookupA name s.connections) rRes
      let resourceTemplates := fetchResourceTemplatesList (lookupA name s.connections) tpRes
      let conn2 : McpConnection :=
        { server :=
          { status := McpServerStatus.connected
            name := name
            config := config
            error := ""
            disabled := false
            tools := some tools
            resources := some resources
            resourceTemplates := some resourceTemplates } }
      let s := { s with connections := setA name conn2 s.connections }
      let s :=
        match lookupA name s.connectionStates with
        | none => s
        | some st =>
          let st2 := { st with
            status := CStatus.connected
            lastConnected := some ()
            reconnectAttempts := 0
            consecutivePingFailures := 0 }
          { s with connectionStates := setA name st2 s.connectionStates }
      (startPingMonitoring name s, none)

/-- The success path of sendPing: a completed probe resets the
consecutive ping failure counter of the tracked state to 0. -/
def sendPingSuccess (name : String) (s : McpService) : McpService :=
  match lookupA name s.connectionStates with
  | none => s
  | some st =>
    let st2 := { st with consecutivePingFailures := 0 }
    { s with connectionStates := setA name st2 s.connectionStates }

/-- handlePingFailure: increments the consecutive ping failure counter
and, once it reaches failuresBeforeDisconnect, invokes
handleDisconnection. The Boolean reports whether this tick invoked
handleDisconnection (the disconnection trigger). -/
def handlePingFailure (name : String) (error : String) (s : McpService) :
    McpService × Bool :=
  match lookupA name s.connectionStates with
  | none => (s, false)
  | some st =>
    let st2 := { st with consecutivePingFailures := st.consecutivePingFailures + 1 }
    let s2 := { s with connectionStates := setA name st2 s.connectionStates }
    if s.pingConfig.failuresBeforeDisconnect ≤ st2.consecutivePingFailures then
      (handleDisconnection name error s2, true)
    else (s2, false)

/-- One tick of the ping interval armed by startPingMonitoring: the probe
either succeeds (sendPing resolves: counter reset) or fails (the catch
routes the error into handlePingFailure). -/
def pingTick (name : String) (success : Bool) (s : McpService) : McpService × Bool :=
  if success then (sendPingSuccess name s, false)
  else handlePingFailure name "Ping timeout" s

/-- A run of consecutive ping ticks, counting how many of them triggered a
disconnection. -/
def runPings (name : String) (outcomes : List Bool) (s : McpService) :
    McpService × Nat :=
  outcomes.foldl
    (fun acc ok =>
      let r := pingTick name ok acc.1
      (r.1, acc.2 + (if r.2 then 1 else 0)))
    (s, 0)

/-- updateServerConnections: the reconciler. Tears down connections whose
name left the desired set; for each desired entry, initializes absent
names, and for present names compares JSON.stringify of the desired
config against the stored serialized snapshot, tearing down and
re-initializing on textual difference. Errors of individual
initializations are caught and logged, never aborting the loop. The
world parameter supplies each connection attempt with its outcome. -/
def updateServerConnections (serverConfigs : List (String × Json))
    (world : String → ConnectOutcome) (s : McpService) : McpService :=
  let currentNames := s.connections.map Prod.fst
  let s := currentNames.foldl
    (fun acc name =>
      if (lookupA name serverConfigs).isSome then acc
      else deleteConnection name acc) s
  serverConfigs.foldl
    (fun acc p =>
      match lookupA p.1 acc.connections with
      | none => (initializeConnection p.1 p.2 (world p.1) acc).1
      | some currentConnection =>
        if jsonStringify p.2 = jsonStringify currentConnection.server.config then acc
        else
          let acc := deleteConnection p.1 acc
          (initializeConnection p.1 p.2 (world p.1) acc).1)
    s

/-- McpSettings from the shared types module: the desired server map, as
read from the runtime setting mcp. The record of servers is an insertion
ordered association list of configs. -/
structure McpSettings where
  servers : Option (List (String × Json))
  maxRetries : Option Nat

/-- getServers: the server records of all non disabled connections, in
map iteration (insertion) order. -/
def getServers (s : McpService) : List McpServer :=
  (s.connections.filter (fun p => !p.2.server.disabled)).map (fun p => p.2.server)

/-- getProviderData: the cached provider snapshot. -/
def getProviderData (s : McpService) : McpProvider :=
  s.mcpProvider

/-- initializeMcpServers: reads the settings; when a server map is
present, reconciles against it and then rebuilds the cached provider
snapshot from the resulting connection set. Absent settings leave the
service untouched. -/
def initializeMcpServers (settings : Option McpSettings)
    (world : String → ConnectOutcome) (s : McpService) : McpService :=
  match settings with
  | none => s
  | some ms =>
    match ms.servers with
    | none => s
    | some serverConfigs =>
      let s := updateServerConnections serverConfigs world s
      { s with mcpProvider := buildMcpProviderData (getServers s) }

/-- The result of a forwarded tool call: the content array is optional in
the raw result (content items are abstract). -/
structure CallToolResult where
  content : Option (List String)
  isError : Bool

/-- The per call timeout computed by callTool from the stored serialized
config: JSON.parse of the snapshot (which always succeeds on a stringify
image, so the catch arm is unreachable there), then the JavaScript
expression config.timeoutInMillis with fallback to the default on any
falsy value. Configs are typed, so the field is numeric when present. -/
def callToolTimeout (config : Json) : Nat :=
  match jsonLookup config "timeoutInMillis" with
  | some (Json.num n) => if n = 0 then DEFAULT_MCP_TIMEOUT_SECONDS else n
  | _ => DEFAULT_MCP_TIMEOUT_SECONDS

/-- callTool: rejects unknown and disabled servers, computes the per call
timeout from the stored config, forwards the call (clientCall receives
the tool name and the timeout), and rejects results missing the content
array. The service state is threaded through unchanged everywhere —
callTool only reads it. -/
def callTool (serverName toolName : String)
    (clientCall : String → Nat → Except String CallToolResult)
    (s : McpService) : Except String CallToolResult × McpService :=
  match lookupA serverName s.connections with
  | none => (Except.error ("No connection found for server: " ++ serverName), s)
  | some connection =>
    if connection.server.disabled then
      (Except.error ("Server \"" ++ serverName ++ "\" is disabled"), s)
    else
      let timeout := callToolTimeout connection.server.config
      match clientCall toolName timeout with
      | Except.error e => (Except.error e, s)
      | Except.ok result =>
        match result.content with
        | none => (Except.error "Invalid tool result: missing content array", s)
        | some _ => (Except.ok result, s)

/-- restartConnection: with no connection for the name (or one whose
stored config text is empty, impossible for a stringify image) this is a
no-op; otherwise it marks the record connecting, clears its error text,
tears the connection down and re-runs initializeConnection on the parsed
stored config, wrapping any failure in a fresh error. -/
def restartConnection (name : String) (outcome : ConnectOutcome)
    (s : McpService) : McpService × Option String :=
  match lookupA name s.connections with
  | none => (s, none)
  | some connection =>
    let conn2 := { connection with server :=
      { connection.server with status := McpServerStatus.connecting, error := "" } }
    let s := { s with connections := setA name conn2 s.connections }
    let s := deleteConnection name s
    match initializeConnection name connection.server.config outcome s with
    | (s2, none) => (s2, none)
    | (s2, some _) => (s2, some ("Failed to connect to " ++ name ++ " MCP server"))

-- Association map lemmas.

theorem lookupA_setA_self {α : Type} (k : String) (v : α) (m : List (String × α)) :
    lookupA k (setA k v m) = some v := by
  induction m with
  | nil => simp [setA, lookupA]
  | cons p rest ih =>
    obtain ⟨k2, v2⟩ := p
    by_cases h : k2 = k
    · simp [setA, lookupA, h]
    · simp [setA, lookupA, h, ih]

theorem lookupA_eraseA_self {α : Type} (k : String) (m : List (String × α)) :
    lookupA k (eraseA k m) = none := by
  induction m with
  | nil => rfl
  | cons p rest ih =>
    obtain ⟨k2, v2⟩ := p
    by_cases h : k2 = k
    · simpa [eraseA, h] using ih
    · simp [eraseA, lookupA, h, ih]

theorem lookupA_mem {α : Type} (k : String) (v : α) (m : List (String × α))
    (h : lookupA k m = some v) : (k, v) ∈ m := by
  induction m with
  | nil => simp [lookupA] at h
  | cons p rest ih =>
    obtain ⟨k2, v2⟩ := p
    by_cases hk : k2 = k
    · subst hk
      simp [lookupA] at h
      simp [h]
    · simp [lookupA, hk] at h
      exact List.mem_cons_of_mem _ (ih h)

theorem setA_mem_self {α : Type} (k : String) (v : α) (m : List (String × α)) :
    (k, v) ∈ setA k v m := by
  induction m with
  | nil => simp [setA]
  | cons p rest ih =>
    obtain ⟨k2, v2⟩ := p
    by_cases h : k2 = k
    · simp [setA, h]
    · simp [setA, h]
      right
      exact ih

/-- A looked up, non disabled connection contributes its server record to
getServers. -/
theorem mem_getServers_of_lookupA (s : McpService) (k : String) (c : McpConnection)
    (h : lookupA k s.connections = some c) (hd : c.server.disabled = false) :
    c.server ∈ getServers s := by
  have hmem : (k, c) ∈ s.connections := lookupA_mem k c s.connections h
  unfold getServers
  refine List.mem_map.mpr ⟨(k, c), List.mem_filter.mpr ⟨hmem, ?_⟩, rfl⟩
  simp [hd]

-- Concrete objects used by witnesses and counterexamples.

/-- A tracked state with three spent reconnect attempts. -/
def backoffState : ConnectionState :=
  { status := CStatus.connected
    pingInterval := true
    reconnectTimeout := none
    reconnectAttempts := 3
    lastConnected := none
    lastError := none
    consecutivePingFailures := 0 }

/-- A service tracking backoffState under the name srv. -/
def backoffService : McpService :=
  { emptyService with connectionStates := [("srv", backoffState)] }

/-- A disabled connection record. -/
def disabledConn : McpConnection :=
  { server :=
    { name := "srv"
      status := McpServerStatus.connected
      config := Json.obj [("type", Json.str "http"), ("url", Json.str "http://x")]
      error := ""
      disabled := true
      tools := some []
      resources := some []
      resourceTemplates := some [] } }

/-- A service holding only the disabled connection. -/
def disabledService : McpService :=
  { emptyService with connections := [("srv", disabledConn)] }

/-- C4: whenever handleDisconnection runs for a tracked server whose
reconnect attempt counter is below MAX_RECONNECT_ATTEMPTS, the reconnect
timer is armed with delay INITIAL_RETRY_DELAY * BACKOFF_MULTIPLIER ^
attempts = 2000 * 2 ^ attempts milliseconds, and the five delays of the
retry budget are 2000, 4000, 8000, 16000, 32000. -/
theorem backoff_delay_exact (s : McpService) (name error : String) (st : ConnectionState)
    (h : lookupA name s.connectionStates = some st)
    (ha : st.reconnectAttempts < MAX_RECONNECT_ATTEMPTS) :
    (lookupA name (handleDisconnection name error s).connectionStates).map
        ConnectionState.reconnectTimeout = some (some (2000 * 2 ^ st.reconnectAttempts)) ∧
    (List.range MAX_RECONNECT_ATTEMPTS).map
        (fun a => INITIAL_RETRY_DELAY * BACKOFF_MULTIPLIER ^ a) =
      [2000, 4000, 8000, 16000, 32000] := by
  constructor
  · unfold handleDisconnection
    rw [h]
    have h2 : ¬ MAX_RECONNECT_ATTEMPTS ≤ st.reconnectAttempts := Nat.not_le.mpr ha
    simp [h2, lookupA_setA_self, INITIAL_RETRY_DELAY, BACKOFF_MULTIPLIER]
  · rfl

/-- C4 witness: the hypotheses hold of backoffService (attempts 3) and the
armed delay is 2000 * 2 ^ 3 = 16000. -/
theorem backoff_delay_exact_witness :
    lookupA "srv" backoffService.connectionStates = some backoffState ∧
    backoffState.reconnectAttempts < MAX_RECONNECT_ATTEMPTS ∧
    ((lookupA "srv" (handleDisconnection "srv" "boom" backoffService).connectionStates).map
        ConnectionState.reconnectTimeout = some (some (2000 * 2 ^ backoffState.reconnectAttempts)) ∧
     (List.range MAX_RECONNECT_ATTEMPTS).map
        (fun a => INITIAL_RETRY_DELAY * BACKOFF_MULTIPLIER ^ a) =
      [2000, 4000, 8000, 16000, 32000]) :=
  ⟨rfl, by decide,
   backoff_delay_exact backoffService "srv" "boom" backoffState rfl (by decide)⟩

/-- C8: each capability fetch returns the empty list whenever the
underlying protocol call throws, for any connection value and any error;
the fetch is total and never propagates the error. -/
theorem fetch_error_yields_empty (conn : Option McpConnection) (e1 e2 e3 : String) :
    fetchToolsList conn (Except.error e1) = [] ∧
    fetchResourcesList conn (Except.error e2) = [] ∧
    fetchResourceTemplatesList conn (Except.error e3) = [] := by
  refine ⟨?_, ?_, ?_⟩ <;> cases conn <;> rfl

/-- C6: callTool rejects an unknown server with the no-connection error
and a disabled server with the disabled error, returning the service
state unchanged in both cases. -/
theorem callTool_unknown_disabled (s : McpService) (serverName toolName : String)
    (clientCall : String → Nat → Except String CallToolResult) :
    (lookupA serverName s.connections = none →
      callTool serverName toolName clientCall s =
        (Except.error ("No connection found for server: " ++ serverName), s)) ∧
    (∀ connection, lookupA serverName s.connections = some connection →
      connection.server.disabled = true →
      callTool serverName toolName clientCall s =
        (Except.error ("Server \"" ++ serverName ++ "\" is disabled"), s)) := by
  constructor
  · intro h
    unfold callTool
    rw [h]
  · intro connection h hd
    unfold callTool
    rw [h]
    simp [hd]

/-- C6 witness: both rejection cases at concrete services, with the state
returned unchanged. -/
theorem callTool_unknown_disabled_witness :
    (callTool "ghost" "t" (fun _ _ => Except.error "unused") emptyService =
      (Except.error ("No connection found for server: " ++ "ghost"), emptyService)) ∧
    (callTool "srv" "t" (fun _ _ => Except.error "unused") disabledService =
      (Except.error ("Server \"" ++ "srv" ++ "\" is disabled"), disabledService)) :=
  ⟨(callTool_unknown_disabled emptyService "ghost" "t" (fun _ _ => Except.error "unused")).1 rfl,
   (callTool_unknown_disabled disabledService "srv" "t" (fun _ _ => Except.error "unused")).2
      disabledConn rfl rfl⟩

/-- C10: restartConnection for a name with no connection entry returns
normally with no error and the service state unchanged. -/
theorem restart_unknown_noop (s : McpService) (name : String) (outcome : ConnectOutcome)
    (h : lookupA name s.connections = none) :
    restartConnection name outcome s = (s, none) := by
  unfold restartConnection
  rw [h]

/-- C10 witness: restarting an unknown name on the empty service. -/
theorem restart_unknown_noop_witness :
    lookupA "ghost" emptyService.connections = none ∧
    restartConnection "ghost" (ConnectOutcome.connectFail "e") emptyService =
      (emptyService, none) :=
  ⟨rfl, restart_unknown_noop emptyService "ghost" (ConnectOutcome.connectFail "e") rfl⟩

-- Helper lemmas about handleDisconnection.

theorem handleDisconnection_connections (name error : String) (s : McpService) :
    (handleDisconnection name error s).connections = s.connections := by
  unfold handleDisconnection
  cases h : lookupA name s.connectionStates with
  | none => rfl
  | some st =>
    by_cases h2 : MAX_RECONNECT_ATTEMPTS ≤ st.reconnectAttempts <;> simp [h2]

theorem handleDisconnection_status (name error : String) (s : McpService)
    (st : ConnectionState) (h : lookupA name s.connectionStates = some st) :
    (lookupA name (handleDisconnection name error s).connectionStates).map
      ConnectionState.status = some CStatus.disconnected := by
  unfold handleDisconnection
  rw [h]
  by_cases h2 : MAX_RECONNECT_ATTEMPTS ≤ st.reconnectAttempts <;>
    simp [h2, lookupA_setA_self]

/-- The tracked state of a server whose reconnect budget is exhausted
(reconnectAttempts = MAX_RECONNECT_ATTEMPTS). -/
def exhaustedState : ConnectionState :=
  { status := CStatus.connected
    pingInterval := true
    reconnectTimeout := none
    reconnectAttempts := 5
    lastConnected := some ()
    lastError := none
    consecutivePingFailures := 0 }

/-- A service tracking exhaustedState under the name srv. -/
def exhaustedService : McpService :=
  { emptyService with connectionStates := [("srv", exhaustedState)] }

/-- C2: evaluating handleDisconnection at an exhausted retry budget. The
status that results is disconnected, not failed (no assignment of the
declared failed member exists in the code), no reconnect timer is armed,
and a further disconnection event still arms none. -/
theorem maxAttempts_stays_disconnected :
    ((lookupA "srv" (handleDisconnection "srv" "boom" exhaustedService).connectionStates).map
        ConnectionState.status = some CStatus.disconnected) ∧
    ((lookupA "srv" (handleDisconnection "srv" "boom" exhaustedService).connectionStates).map
        ConnectionState.status ≠ some CStatus.failed) ∧
    ((lookupA "srv" (handleDisconnection "srv" "boom" exhaustedService).connectionStates).map
        ConnectionState.reconnectTimeout = some none) ∧
    ((lookupA "srv" (handleDisconnection "srv" "boom2"
        (handleDisconnection "srv" "boom" exhaustedService)).connectionStates).map
        ConnectionState.reconnectTimeout = some none) :=
  ⟨rfl, by decide, rfl, rfl⟩

/-- C9: when the handshake rejects after the transport was built (the
static transport guards pass), initializeConnection rethrows the error,
yet leaves the freshly inserted connection in the map with visible status
connecting while the tracked internal status is disconnected, and
getServers reports that server as connecting. -/
theorem connectFail_leaves_connecting (s : McpService) (name e : String) (config : Json)
    (hT : transportCheck name config = none) :
    ((initializeConnection name config (ConnectOutcome.connectFail e) s).2 = some e) ∧
    ((lookupA name (initializeConnection name config
        (ConnectOutcome.connectFail e) s).1.connections).map
        (fun c => c.server.status) = some McpServerStatus.connecting) ∧
    ((lookupA name (initializeConnection name config
        (ConnectOutcome.connectFail e) s).1.connectionStates).map
        ConnectionState.status = some CStatus.disconnected) ∧
    (∃ srv ∈ getServers (initializeConnection name config
        (ConnectOutcome.connectFail e) s).1,
      srv.name = name ∧ srv.status = McpServerStatus.connecting) := by
  have hconn : lookupA name (initializeConnection name config
      (ConnectOutcome.connectFail e) s).1.connections =
      some { server :=
        { name := name
          status := McpServerStatus.connecting
          config := config
          error := ""
          disabled := false
          tools := none
          resources := none
          resourceTemplates := none } } := by
    simp only [initializeConnection, hT]
    simp [deleteConnection, handleDisconnection, MAX_RECONNECT_ATTEMPTS, lookupA_setA_self]
  refine ⟨?_, ?_, ?_, ?_⟩
  · simp [initializeConnection, hT, deleteConnection, handleDisconnection,
      MAX_RECONNECT_ATTEMPTS, lookupA_setA_self]
  · simp [hconn]
  · simp [initializeConnection, hT, deleteConnection, handleDisconnection,
      MAX_RECONNECT_ATTEMPTS, lookupA_setA_self]
  · exact ⟨_, mem_getServers_of_lookupA _ name _ hconn rfl, rfl, rfl⟩

/-- A well formed http config (passes the static transport guards). -/
def httpCfg : Json :=
  Json.obj [("type", Json.str "http"), ("url", Json.str "http://example")]

/-- C9 witness: a rejected handshake for a well formed http config on the
empty service. -/
theorem connectFail_leaves_connecting_witness :
    transportCheck "srv" httpCfg = none ∧
    (((initializeConnection "srv" httpCfg (ConnectOutcome.connectFail "refused")
        emptyService).2 = some "refused") ∧
     ((lookupA "srv" (initializeConnection "srv" httpCfg
        (ConnectOutcome.connectFail "refused") emptyService).1.connections).map
        (fun c => c.server.status) = some McpServerStatus.connecting) ∧
     ((lookupA "srv" (initializeConnection "srv" httpCfg
        (ConnectOutcome.connectFail "refused") emptyService).1.connectionStates).map
        ConnectionState.status = some CStatus.disconnected) ∧
     (∃ srv ∈ getServers (initializeConnection "srv" httpCfg
        (ConnectOutcome.connectFail "refused") emptyService).1,
       srv.name = "srv" ∧ srv.status = McpServerStatus.connecting)) :=
  ⟨rfl, connectFail_leaves_connecting emptyService "srv" "refused" httpCfg rfl⟩

/-- C5: starting from a tracked state with a zero consecutive ping
failure counter under the default ping configuration, three consecutive
ping failures trigger exactly one disconnection, two trigger none, two
failures followed by a success trigger none and leave the counter at 0,
and a successful ping resets the counter of any tracked state to 0. -/
theorem ping_failure_threshold (s : McpService) (name : String) (st : ConnectionState)
    (h : lookupA name s.connectionStates = some st)
    (hc : st.consecutivePingFailures = 0)
    (hp : s.pingConfig = DEFAULT_PING_CONFIG) :
    (runPings name [false, false, false] s).2 = 1 ∧
    (runPings name [false, false] s).2 = 0 ∧
    (runPings name [false, false, true] s).2 = 0 ∧
    ((lookupA name (runPings name [false, false, true] s).1.connectionStates).map
      ConnectionState.consecutivePingFailures = some 0) ∧
    (∀ (s2 : McpService) (name2 : String) (st2 : ConnectionState),
      lookupA name2 s2.connectionStates = some st2 →
      (lookupA name2 (sendPingSuccess name2 s2).connectionStates).map
        ConnectionState.consecutivePingFailures = some 0) := by
  refine ⟨?_, ?_, ?_, ?_, ?_⟩
  · simp [runPings, pingTick, handlePingFailure, sendPingSuccess, h, hc, hp,
      DEFAULT_PING_CONFIG, lookupA_setA_self, handleDisconnection, MAX_RECONNECT_ATTEMPTS]
  · simp [runPings, pingTick, handlePingFailure, sendPingSuccess, h, hc, hp,
      DEFAULT_PING_CONFIG, lookupA_setA_self, handleDisconnection, MAX_RECONNECT_ATTEMPTS]
  · simp [runPings, pingTick, handlePingFailure, sendPingSuccess, h, hc, hp,
      DEFAULT_PING_CONFIG, lookupA_setA_self, handleDisconnection, MAX_RECONNECT_ATTEMPTS]
  · simp [runPings, pingTick, handlePingFailure, sendPingSuccess, h, hc, hp,
      DEFAULT_PING_CONFIG, lookupA_setA_self, handleDisconnection, MAX_RECONNECT_ATTEMPTS]
  · intro s2 name2 st2 h2
    simp [sendPingSuccess, h2, lookupA_setA_self]

/-- A healthy tracked state with a zero ping failure counter. -/
def healthyState : ConnectionState :=
  { status := CStatus.connected
    pingInterval := true
    reconnectTimeout := none
    reconnectAttempts := 0
    lastConnected := some ()
    lastError := none
    consecutivePingFailures := 0 }

/-- A service tracking healthyState under the name srv. -/
def healthyService : McpService :=
  { emptyService with connectionStates := [("srv", healthyState)] }

/-- C5 witness: the threshold behavior at the concrete healthy service. -/
theorem ping_failure_threshold_witness :
    lookupA "srv" healthyService.connectionStates = some healthyState ∧
    healthyState.consecutivePingFailures = 0 ∧
    healthyService.pingConfig = DEFAULT_PING_CONFIG ∧
    ((runPings "srv" [false, false, false] healthyService).2 = 1 ∧
     (runPings "srv" [false, false] healthyService).2 = 0 ∧
     (runPings "srv" [false, false, true] healthyService).2 = 0 ∧
     ((lookupA "srv" (runPings "srv" [false, false, true] healthyService).1.connectionStates).map
       ConnectionState.consecutivePingFailures = some 0) ∧
     (∀ (s2 : McpService) (name2 : String) (st2 : ConnectionState),
       lookupA name2 s2.connectionStates = some st2 →
       (lookupA name2 (sendPingSuccess name2 s2).connectionStates).map
         ConnectionState.consecutivePingFailures = some 0)) :=
  ⟨rfl, rfl, rfl, ping_failure_threshold healthyService "srv" healthyState rfl rfl rfl⟩

-- C7: per call timeout extraction.

/-- A stream (http) config carrying its declared timeout field. -/
def httpCfgTimeout : Json :=
  Json.obj [("type", Json.str "http"), ("url", Json.str "http://example/mcp"),
    ("timeout", Json.num 12345)]

/-- A subprocess (stdio) config carrying timeoutInMillis. -/
def stdioCfgTimeout : Json :=
  Json.obj [("type", Json.str "stdio"), ("command", Json.str "mcp-server"),
    ("timeoutInMillis", Json.num 12345)]

/-- A service with one connected http server whose stored config is
httpCfgTimeout. -/
def httpTimeoutService : McpService :=
  { emptyService with connections := [("h",
    { server :=
      { name := "h"
        status := McpServerStatus.connected
        config := httpCfgTimeout
        error := ""
        disabled := false
        tools := some []
        resources := some []
        resourceTemplates := some [] } })] }

/-- C7: the timeout callTool computes honors timeoutInMillis of a stdio
config but ignores the timeout field declared by the http config variant,
falling back to the default; the forwarded call for the http server
receives the default, not the configured 12345. -/
theorem callTool_stream_timeout_ignored :
    callToolTimeout stdioCfgTimeout = 12345 ∧
    callToolTimeout httpCfgTimeout = DEFAULT_MCP_TIMEOUT_SECONDS ∧
    callToolTimeout httpCfgTimeout ≠ 12345 ∧
    (callTool "h" "t"
      (fun _ timeout => Except.ok { content := some [toString timeout], isError := false })
      httpTimeoutService).1 =
      Except.ok { content := some [toString DEFAULT_MCP_TIMEOUT_SECONDS], isError := false } :=
  ⟨rfl, rfl, by decide, rfl⟩

-- C1: change detection in the reconciler.

/-- A stdio config with keys in the order type, command. -/
def cfgOrder1 : Json :=
  Json.obj [("type", Json.str "stdio"), ("command", Json.str "run-server")]

/-- The structurally identical config with keys in the order command,
type (as a host may validly resupply it). -/
def cfgOrder2 : Json :=
  Json.obj [("command", Json.str "run-server"), ("type", Json.str "stdio")]

/-- A cached tool of the first connection generation. -/
def sampleTool : Tool :=
  { name := "toolA", description := some "a tool", inputSchema := none }

/-- A service with one connected server whose stored snapshot is
cfgOrder1 and whose cache holds sampleTool. -/
def keyOrderService : McpService :=
  { emptyService with
    connections := [("srv",
      { server :=
        { name := "srv"
          status := McpServerStatus.connected
          config := cfgOrder1
          error := ""
          disabled := false
          tools := some [sampleTool]
          resources := some []
          resourceTemplates := some [] } })]
    connectionStates := [("srv", healthyState)] }

/-- A world where every connection attempt succeeds with empty
capability lists. -/
def reorderWorld : String → ConnectOutcome := fun _ =>
  ConnectOutcome.ok (Except.ok (some [])) (Except.ok (some [])) (Except.ok (some []))

/-- C1: the two configs are field-wise structurally equal yet serialize
to different texts, and the reconciler, which compares serialized texts,
treats the resupplied config as changed: it tears the connection down and
re-initializes it (the stored snapshot becomes cfgOrder2 and the cached
sampleTool is discarded for the fresh empty fetch). -/
theorem reconciler_compares_serialized_text :
    structuralEq cfgOrder1 cfgOrder2 = true ∧
    jsonStringify cfgOrder2 ≠ jsonStringify cfgOrder1 ∧
    ((lookupA "srv" (updateServerConnections [("srv", cfgOrder2)] reorderWorld
        keyOrderService).connections).map (fun c => c.server.config) = some cfgOrder2) ∧
    ((lookupA "srv" (updateServerConnections [("srv", cfgOrder2)] reorderWorld
        keyOrderService).connections).map (fun c => c.server.tools) = some (some [])) :=
  ⟨by decide, by decide, rfl, rfl⟩

-- C3: staleness of the cached provider snapshot.

/-- The capability set of the first connection generation. -/
def tool1 : Tool := { name := "alpha", description := some "first", inputSchema := none }

/-- The capability set of the second connection generation. -/
def tool2 : Tool := { name := "beta", description := some "second", inputSchema := none }

/-- A world where every attempt connects and lists exactly tool1. -/
def worldTool1 : String → ConnectOutcome := fun _ =>
  ConnectOutcome.ok (Except.ok (some [tool1])) (Except.ok none) (Except.ok none)

/-- Settings whose desired server map holds the single server srv. -/
def settingsA : McpSettings :=
  { servers := some [("srv", httpCfg)], maxRetries := none }

/-- The service after its initial reconciliation pass: srv connected with
tool1 and the snapshot rebuilt. -/
def sTrace1 : McpService := initializeMcpServers (some settingsA) worldTool1 emptyService

/-- The service after a successful manual restart of srv that lists
tool2: the capability set changed, but no snapshot rebuild ran. -/
def sTrace2 : McpService :=
  (restartConnection "srv"
    (ConnectOutcome.ok (Except.ok (some [tool2])) (Except.ok none) (Except.ok none))
    sTrace1).1

/-- C3 counterexample: after the restart changed the capability set of
srv from tool1 to tool2, the cached snapshot getProviderData returns
differs from the snapshot freshly rebuilt from the current records. -/
theorem snapshot_stale_after_restart :
    (lookupA "srv" sTrace2.connections).map (fun c => c.server.tools) = some (some [tool2]) ∧
    getProviderData sTrace2 ≠ buildMcpProviderData (getServers sTrace2) :=
  ⟨rfl, fun hEq => absurd (congrArg McpProvider.text hEq) (by decide)⟩

/-- C3 amended: right after a reconciliation pass of initializeMcpServers
over a present server map, the cached snapshot equals the one rebuilt
from the resulting connection set (the rebuild is the final step of the
pass and leaves the connection set untouched). -/
theorem provider_rebuilt_after_reconcile (settings : McpSettings)
    (cfgs : List (String × Json)) (world : String → ConnectOutcome) (s : McpService)
    (h : settings.servers = some cfgs) :
    getProviderData (initializeMcpServers (some settings) world s) =
      buildMcpProviderData (getServers (initializeMcpServers (some settings) world s)) := by
  obtain ⟨srvs, mr⟩ := settings
  simp only at h
  subst h
  rfl

/-- C3 amended witness: the identity at the concrete trace after the
initial pass. -/
theorem provider_rebuilt_after_reconcile_witness :
    settingsA.servers = some [("srv", httpCfg)] ∧
    getProviderData (initializeMcpServers (some settingsA) worldTool1 emptyService) =
      buildMcpProviderData (getServers (initializeMcpServers (some settingsA) worldTool1
        emptyService)) :=
  ⟨rfl, provider_rebuilt_after_reconcile settingsA [("srv", httpCfg)] worldTool1
    emptyService rfl⟩

end Mcp
